import Mathlib

/-!
Shallow embedding of the dynamic-field attendance-submission subsystem of
the Tend_X repository (src/src/pages/AttendanceSubmission.tsx).

The page has four pieces, each embedded below:
* `fetchSpace` — the session resolver effect: looks up a space by its unique
  code, gates on status and end time, optionally prefetches the authenticated
  user's profile, and produces the page state (lines 46-114 of the source).
* the render gate — `renderView` chooses among loading / error / success /
  blank / form views from the state flags (lines 143-219).
* the form — `formFields` lists the rendered field keys and their
  client-side validation rules: fixed `name` and `email` fields followed by
  one field per entry of the space's `required_fields`, keyed by
  `name.toLowerCase().replace(/\s+/g, '_')` (lines 238-299).
* `onSubmit` / `handleSubmit` — the submission writer: react-hook-form's
  `handleSubmit` invokes `onSubmit` only when every registered rule passes,
  and `onSubmit` inserts `{space_id, user_id: user?.id || null, fields}`
  (lines 116-141).

Asynchronous store calls are modelled by passing their outcomes as explicit
arguments (`Except Unit _`: `.error` is a thrown/rejected promise, `.ok` a
resolved value); timestamps are naturals; JS objects built from a key list
are association lists built by in-order overwriting writes.
-/

namespace TendX

/-- One entry of a space's `required_fields` JSON array
(`CustomField` interface in the source). -/
structure CustomField where
  id : String
  name : String
  ftype : String
  required : Bool
deriving Repr, DecidableEq

/-- The stored `required_fields` column is untyped JSON (`any` in the
source): either an array of custom fields or some non-array value. -/
inductive StoredFields where
  | arr : List CustomField → StoredFields
  | notArr : StoredFields
deriving Repr, DecidableEq

/-- Models `Array.isArray(data.required_fields) ? data.required_fields : []`
(lines 67, 78, 86 of the source). -/
def sanitizeRequiredFields : StoredFields → List CustomField
  | .arr l => l
  | .notArr => []

/-- A row of the `spaces` table as returned by the store. -/
structure SpaceRow where
  id : String
  title : String
  stype : String
  required_fields : StoredFields
  status : String
  start_time : Option Nat
  end_time : Option Nat
deriving Repr, DecidableEq

/-- The client-side `Space` state value: the fetched row with
`required_fields` sanitized to a list. -/
structure Space where
  id : String
  title : String
  stype : String
  required_fields : List CustomField
  status : String
  start_time : Option Nat
  end_time : Option Nat
deriving Repr, DecidableEq

/-- Models `setSpace` with `required_fields` sanitized to an array. -/
def toClientSpace (row : SpaceRow) : Space :=
  { id := row.id, title := row.title, stype := row.stype,
    required_fields := sanitizeRequiredFields row.required_fields,
    status := row.status, start_time := row.start_time,
    end_time := row.end_time }

/-- A row of the `users` table used for prefill; `full_name` and `email`
may be null. -/
structure UserRow where
  full_name : Option String
  email : Option String
deriving Repr, DecidableEq

/-- The component state set by the `fetchSpace` effect:
`space`, `error`, `loading`, and the name/email pair passed to
`form.reset` when prefill ran (none when it did not). -/
structure PageState where
  space : Option Space
  error : Option String
  loading : Bool
  formReset : Option (String × String)
deriving Repr, DecidableEq

/-- The error message set by the catch-all handler (line 107). -/
def notFoundMsg : String := "Attendance session not found"

/-- Models `data.end_time && new Date(data.end_time) < new Date()` (line 74):
the end time is set and strictly before the current time. -/
def sessionEnded (row : SpaceRow) (now : Nat) : Bool :=
  match row.end_time with
  | some t => t < now
  | none => false

/-- The `fetchSpace` effect (source lines 46-114). Arguments supply the
outcome of each awaited store call: `lookup` is the
`spaces`-by-`unique_code` query (`.error` = thrown query error, covering
not-found since `.single()` errors then), `prefill` the `users` profile
query (`.error` = rejected promise, `.ok none` = no row data). Returns
the resulting state paired with the number of profile fetches issued.
A thrown prefill lands in the same catch as a lookup failure (line 105),
after `setSpace` has already run (line 84). -/
def fetchSpace (code : Option String) (lookup : Except Unit SpaceRow)
    (now : Nat) (user : Option String)
    (prefill : Except Unit (Option UserRow)) : PageState × Nat :=
  match code with
  | none =>
      ({ space := none, error := some "Invalid attendance code",
         loading := false, formReset := none }, 0)
  | some _ =>
      match lookup with
      | .error _ =>
          ({ space := none, error := some notFoundMsg,
             loading := false, formReset := none }, 0)
      | .ok data =>
          if data.status ≠ "open" then
            ({ space := some (toClientSpace data),
               error := some ("This attendance session is " ++ data.status),
               loading := false, formReset := none }, 0)
          else if sessionEnded data now then
            ({ space := some (toClientSpace data),
               error := some "This attendance session has ended",
               loading := false, formReset := none }, 0)
          else
            match user with
            | none =>
                ({ space := some (toClientSpace data), error := none,
                   loading := false, formReset := none }, 0)
            | some _ =>
                match prefill with
                | .error _ =>
                    ({ space := some (toClientSpace data),
                       error := some notFoundMsg,
                       loading := false, formReset := none }, 1)
                | .ok none =>
                    ({ space := some (toClientSpace data), error := none,
                       loading := false, formReset := none }, 1)
                | .ok (some u) =>
                    ({ space := some (toClientSpace data), error := none,
                       loading := false,
                       formReset :=
                         some (u.full_name.getD "", u.email.getD "") }, 1)

/-- The five mutually exclusive render outcomes of the component. -/
inductive View where
  | loadingView
  | errorView
  | successView
  | blankView
  | formView
deriving Repr, DecidableEq

/-- Full render-gating state: the three flags and the space. -/
structure UiState where
  loading : Bool
  error : Option String
  submitted : Bool
  space : Option Space
deriving Repr, DecidableEq

/-- The early-return cascade of the component body (lines 143-219):
loading, then error, then submitted, then missing space, else the form. -/
def renderView (st : UiState) : View :=
  if st.loading then .loadingView
  else if st.error.isSome then .errorView
  else if st.submitted then .successView
  else if st.space.isNone then .blankView
  else .formView

/-- The view rendered right after the fetch effect settles
(`submitted` is still false at that point). -/
def viewAfterFetch (st : PageState) : View :=
  renderView { loading := st.loading, error := st.error,
               submitted := false, space := st.space }

/-- The whitespace class of the JS regex `\s` restricted to the ASCII
control characters and space (the characters `\s` matches below 0x80). -/
def jsWhitespace (c : Char) : Bool :=
  c = ' ' || c = '\t' || c = '\n' || c = '\r' || c = '\x0b' || c = '\x0c'

/-- One left-to-right pass of `.replace(/\s+/g, '_')`: the flag records
whether the previous character was whitespace, so a whole run emits a
single underscore. -/
def collapseWsAux : Bool → List Char → List Char
  | _, [] => []
  | prevWs, c :: cs =>
      if jsWhitespace c then
        if prevWs then collapseWsAux true cs
        else '_' :: collapseWsAux true cs
      else c :: collapseWsAux false cs

/-- Models `name.toLowerCase().replace(/\s+/g, '_')` (line 281): the storage key
of a custom field. Lower-casing is ASCII, as in the keys this app uses. -/
def normalizeKey (s : String) : String :=
  String.mk (collapseWsAux false (s.data.map Char.toLower))

/-- Dropping a prefix never lengthens a list. -/
theorem dropWhile_length_le (p : Char → Bool) (l : List Char) :
    (l.dropWhile p).length ≤ l.length := by
  induction l with
  | nil => simp [List.dropWhile]
  | cons c cs ih =>
      by_cases h : p c
      · simp only [List.dropWhile, h]
        exact Nat.le_succ_of_le ih
      · simp [List.dropWhile, h]

/-- Run-collapsing stated the way the spec reads: on hitting a whitespace
character, emit one underscore and drop the entire whitespace run. -/
def collapseRuns (cs : List Char) : List Char :=
  match cs with
  | [] => []
  | c :: rest =>
      if jsWhitespace c then '_' :: collapseRuns (rest.dropWhile jsWhitespace)
      else c :: collapseRuns rest
termination_by cs.length
decreasing_by
  all_goals simp_wf
  exact Nat.lt_succ_of_le (dropWhile_length_le jsWhitespace rest)

/-- Lower-case then collapse each whitespace run to one underscore,
phrased with `collapseRuns`: the spec's reading of the key rule. -/
def specNormalizeKey (s : String) : String :=
  String.mk (collapseRuns (s.data.map Char.toLower))

/-- Client-side validation attached to one rendered field: a `required`
rule and, for the email field only, the email-shape pattern. -/
structure FieldRule where
  required : Bool
  emailPattern : Bool
deriving Repr, DecidableEq

/-- The rendered form, in order (lines 240-299): fixed `name` (required)
and `email` (required, pattern) fields, then one field per custom field
in stored order, keyed by the normalized name, required iff the custom
field says so. -/
def formFields (sp : Space) : List (String × FieldRule) :=
  ("name", { required := true, emailPattern := false }) ::
  ("email", { required := true, emailPattern := true }) ::
  sp.required_fields.map
    (fun f => (normalizeKey f.name,
               { required := f.required, emailPattern := false }))

/-- The key sequence of the rendered form. -/
def formFieldKeys (sp : Space) : List String := (formFields sp).map Prod.fst

/-- The letter class `[A-Za-z]` (the `/i` flag makes `[A-Z]` case-insensitive). -/
def asciiLetter (c : Char) : Bool :=
  ('A' ≤ c && c ≤ 'Z') || ('a' ≤ c && c ≤ 'z')

/-- The digit class `[0-9]`. -/
def asciiDigit (c : Char) : Bool := '0' ≤ c && c ≤ '9'

/-- The local-part class `[A-Z0-9._%+-]` with `/i`. -/
def localChar (c : Char) : Bool :=
  asciiLetter c || asciiDigit c || c = '.' || c = '_' || c = '%' ||
  c = '+' || c = '-'

/-- The domain class `[A-Z0-9.-]` with `/i`. -/
def domainChar (c : Char) : Bool :=
  asciiLetter c || asciiDigit c || c = '.' || c = '-'

/-- Split a character list at the first occurrence of `t`, returning the
parts before and after it; `none` when `t` does not occur. -/
def splitAtFirst (t : Char) : List Char → Option (List Char × List Char)
  | [] => none
  | c :: cs =>
      if c = t then some ([], cs)
      else
        match splitAtFirst t cs with
        | none => none
        | some (a, b) => some (c :: a, b)

/-- Split a character list at the last occurrence of `t`. -/
def splitAtLast (t : Char) (cs : List Char) :
    Option (List Char × List Char) :=
  match splitAtFirst t cs.reverse with
  | none => none
  | some (a, b) => some (b.reverse, a.reverse)

/-- Matching of the email rule's regex
`/^[A-Z0-9._%+-]+@[A-Z0-9.-]+\.[A-Z]{2,}$/i` (line 261) on a character
list. A match must split at the first `@` (neither class contains `@`,
so a matching string has exactly one) and, for the `\.[A-Z]{2,}$` tail,
at the last `.` of the remainder: any earlier dot would leave a later
dot inside the all-letter tail, so a match exists iff the last-dot split
satisfies the classes. -/
def emailChars (cs : List Char) : Bool :=
  match splitAtFirst '@' cs with
  | none => false
  | some (loc, rest) =>
      !loc.isEmpty && loc.all localChar &&
      match splitAtLast '.' rest with
      | none => false
      | some (dom, tld) =>
          !dom.isEmpty && dom.all domainChar &&
          decide (2 ≤ tld.length) && tld.all asciiLetter

/-- Whether a string matches the email pattern of the form's email rule. -/
def emailOk (s : String) : Bool := emailChars s.data

/-- Whether one field's value passes its react-hook-form rules: an empty
value fails exactly when the field is required; a non-empty value must
additionally match the email pattern when that rule is attached. -/
def ruleOk (r : FieldRule) (v : String) : Bool :=
  if v = "" then !r.required
  else !r.emailPattern || emailOk v

/-- Write one key into a JS object represented as an association list:
a later write to an existing key overwrites its value in place, a new
key is appended. -/
def insertKV : List (String × String) → String → String →
    List (String × String)
  | [], k, v => [(k, v)]
  | (k', v') :: rest, k, v =>
      if k' = k then (k, v) :: rest else (k', v') :: insertKV rest k v

/-- Read a key from the association-list object. -/
def lookupKV (l : List (String × String)) (k : String) : Option String :=
  (l.find? (fun p => p.1 = k)).map Prod.snd

/-- The submitted data object: one property write per rendered field, in
render order, each field contributing the form value stored under its
key (react-hook-form keeps one value per registered name). -/
def buildPayload (sp : Space) (values : String → String) :
    List (String × String) :=
  (formFieldKeys sp).foldl (fun acc k => insertKV acc k (values k)) []

/-- A row inserted into `attendance_records`. -/
structure AttendanceRecord where
  space_id : String
  user_id : Option String
  fields : List (String × String)
deriving Repr, DecidableEq

/-- Models `user?.id || null` (line 123): `||` tests JS truthiness, so an empty
id string is coerced to null, unlike `?? null`. -/
def jsOrNull (user : Option String) : Option String :=
  match user with
  | some uid => if uid = "" then none else some uid
  | none => none

/-- The `onSubmit` handler (lines 116-141): returns without any insert
when `space` is null, otherwise issues exactly one insert of
`{space_id: space.id, user_id: user?.id || null, fields: data}`. The
returned option is the at-most-one issued insert. -/
def onSubmit (space : Option Space) (user : Option String)
    (data : List (String × String)) : Option AttendanceRecord :=
  match space with
  | none => none
  | some sp =>
      some { space_id := sp.id, user_id := jsOrNull user, fields := data }

/-- Models `form.handleSubmit(onSubmit)` (line 238): react-hook-form invokes
`onSubmit` with the collected data only when every registered field's
rules pass; otherwise it flags the fields and makes no call. -/
def handleSubmit (sp : Space) (user : Option String)
    (values : String → String) : Option AttendanceRecord :=
  if (formFields sp).all (fun kr => ruleOk kr.2 (values kr.1)) then
    onSubmit (some sp) user (buildPayload sp values)
  else none

/-- Submit-button state: `isSubmitting` plus a count of inserts issued
from this render. -/
structure SubmitUi where
  isSubmitting : Bool
  inserts : Nat
deriving Repr, DecidableEq

/-- Models the submit button, rendered with `disabled={isSubmitting}` (line 301). -/
def submitDisabled (st : SubmitUi) : Bool := st.isSubmitting

/-- A click on the submit control: a disabled button fires nothing; an
enabled one runs `onSubmit`, which sets `isSubmitting` true before the
insert (line 119) and issues it. -/
def clickSubmit (st : SubmitUi) : SubmitUi :=
  if submitDisabled st then st
  else { isSubmitting := true, inserts := st.inserts + 1 }

/-- Completion of the in-flight request: the `finally` block clears
`isSubmitting` (line 139). -/
def finishSubmit (st : SubmitUi) : SubmitUi :=
  { st with isSubmitting := false }

/-- Any number of submit clicks with no completion in between. -/
def applyClicks : Nat → SubmitUi → SubmitUi
  | 0, st => st
  | n + 1, st => applyClicks n (clickSubmit st)

/-- C3: for every space row with status `open` whose end time is set and
strictly before the current time, the resolver stores the ended error
(overriding the open status) and the page renders the error view, not
the form. -/
theorem c3_open_ended_rejected (c : String) (row : SpaceRow)
    (now t : Nat) (user : Option String)
    (prefill : Except Unit (Option UserRow))
    (hstatus : row.status = "open") (hend : row.end_time = some t)
    (hlt : t < now) :
    (fetchSpace (some c) (.ok row) now user prefill).1.error
        = some "This attendance session has ended" ∧
    viewAfterFetch (fetchSpace (some c) (.ok row) now user prefill).1
        = View.errorView := by
  have hended : sessionEnded row now = true := by
    simp [sessionEnded, hend, hlt]
  simp [fetchSpace, hstatus, hended, viewAfterFetch, renderView]

/-- Witness for C3 at a concrete open-but-ended row. -/
theorem c3_witness :
    (fetchSpace (some "TEND-00042")
        (.ok { id := "s1", title := "T", stype := "Class",
               required_fields := .arr [], status := "open",
               start_time := none, end_time := some 10 })
        20 none (.ok none)).1.error
        = some "This attendance session has ended" ∧
    viewAfterFetch (fetchSpace (some "TEND-00042")
        (.ok { id := "s1", title := "T", stype := "Class",
               required_fields := .arr [], status := "open",
               start_time := none, end_time := some 10 })
        20 none (.ok none)).1
        = View.errorView :=
  c3_open_ended_rejected "TEND-00042" _ 20 10 none (.ok none)
    rfl rfl (by decide)

/-- C4: for every found space row whose status is not `open`, the
resolver stores an error embedding the current status string, whatever
the end time, and the page renders the error view, not the form. -/
theorem c4_status_rejected (c : String) (row : SpaceRow) (now : Nat)
    (user : Option String) (prefill : Except Unit (Option UserRow))
    (hstatus : row.status ≠ "open") :
    (fetchSpace (some c) (.ok row) now user prefill).1.error
        = some ("This attendance session is " ++ row.status) ∧
    viewAfterFetch (fetchSpace (some c) (.ok row) now user prefill).1
        = View.errorView := by
  simp [fetchSpace, hstatus, viewAfterFetch, renderView]

/-- Witness for C4 at a concrete paused row with a future end time. -/
theorem c4_witness :
    (fetchSpace (some "c0")
        (.ok { id := "s1", title := "T", stype := "Event",
               required_fields := .arr [], status := "paused",
               start_time := none, end_time := some 100 })
        20 none (.ok none)).1.error
        = some ("This attendance session is " ++ "paused") ∧
    viewAfterFetch (fetchSpace (some "c0")
        (.ok { id := "s1", title := "T", stype := "Event",
               required_fields := .arr [], status := "paused",
               start_time := none, end_time := some 100 })
        20 none (.ok none)).1
        = View.errorView :=
  c4_status_rejected "c0" _ 20 none (.ok none) (by decide)

/-- C9: a thrown space lookup and an exception thrown after the space
was found (the prefill fetch) land in the same catch, which sets the
same user-visible message, so at the interface a store failure is
indistinguishable from a nonexistent code. -/
theorem c9_single_catch (c : String) (row : SpaceRow) (now : Nat)
    (user : Option String) (prefill : Except Unit (Option UserRow))
    (uid : String)
    (hstatus : row.status = "open")
    (hended : sessionEnded row now = false) :
    ((fetchSpace (some c) (.error ()) now user prefill).1.error
        = some notFoundMsg ∧
     viewAfterFetch (fetchSpace (some c) (.error ()) now user prefill).1
        = View.errorView) ∧
    ((fetchSpace (some c) (.ok row) now (some uid) (.error ())).1.error
        = some notFoundMsg ∧
     viewAfterFetch
        (fetchSpace (some c) (.ok row) now (some uid) (.error ())).1
        = View.errorView) := by
  constructor
  · simp [fetchSpace, viewAfterFetch, renderView]
  · simp [fetchSpace, hstatus, hended, viewAfterFetch, renderView]

/-- Witness for C9 at a concrete open row with a throwing prefill. -/
theorem c9_witness :
    ((fetchSpace (some "c0") (.error ()) 20 (some "u1")
        (.error ())).1.error = some notFoundMsg ∧
     viewAfterFetch (fetchSpace (some "c0") (.error ()) 20 (some "u1")
        (.error ())).1 = View.errorView) ∧
    ((fetchSpace (some "c0")
        (.ok { id := "s1", title := "T", stype := "Class",
               required_fields := .arr [], status := "open",
               start_time := none, end_time := none })
        20 (some "u1") (.error ())).1.error = some notFoundMsg ∧
     viewAfterFetch (fetchSpace (some "c0")
        (.ok { id := "s1", title := "T", stype := "Class",
               required_fields := .arr [], status := "open",
               start_time := none, end_time := none })
        20 (some "u1") (.error ())).1 = View.errorView) :=
  c9_single_catch "c0" _ 20 (some "u1") (.error ()) "u1" rfl (by decide)

/-- C10: whenever a found row is stored — in the status-rejected,
ended-rejected and accepting branches alike — the stored space is the
row with `required_fields` sanitized, so a non-array value becomes the
empty list and the form or rejection view renders with only the fixed
`name` and `email` fields. -/
theorem c10_required_fields_sanitized (c : String) (row : SpaceRow)
    (now : Nat) (user : Option String)
    (prefill : Except Unit (Option UserRow)) :
    (fetchSpace (some c) (.ok row) now user prefill).1.space
        = some (toClientSpace row) ∧
    (row.required_fields = StoredFields.notArr →
      (toClientSpace row).required_fields = [] ∧
      formFieldKeys (toClientSpace row) = ["name", "email"]) := by
  constructor
  · by_cases hs : row.status = "open"
    · by_cases he : sessionEnded row now
      · simp [fetchSpace, hs, he]
      · cases user with
        | none => simp [fetchSpace, hs, he]
        | some uid =>
            cases prefill with
            | error e => simp [fetchSpace, hs, he]
            | ok d => cases d <;> simp [fetchSpace, hs, he]
    · simp [fetchSpace, hs]
  · intro h
    constructor
    · simp [toClientSpace, sanitizeRequiredFields, h]
    · simp [formFieldKeys, formFields, toClientSpace,
            sanitizeRequiredFields, h]

/-- Witness for C10 at a concrete closed row with non-array
`required_fields`. -/
theorem c10_witness :
    (fetchSpace (some "c0")
        (.ok { id := "s1", title := "T", stype := "Class",
               required_fields := .notArr, status := "closed",
               start_time := none, end_time := none })
        20 none (.ok none)).1.space
        = some (toClientSpace
            { id := "s1", title := "T", stype := "Class",
              required_fields := .notArr, status := "closed",
              start_time := none, end_time := none }) ∧
    ((toClientSpace
          { id := "s1", title := "T", stype := "Class",
            required_fields := .notArr, status := "closed",
            start_time := none, end_time := none }).required_fields = [] ∧
      formFieldKeys (toClientSpace
          { id := "s1", title := "T", stype := "Class",
            required_fields := .notArr, status := "closed",
            start_time := none, end_time := none })
        = ["name", "email"]) :=
  ⟨(c10_required_fields_sanitized "c0"
      { id := "s1", title := "T", stype := "Class",
        required_fields := .notArr, status := "closed",
        start_time := none, end_time := none } 20 none (.ok none)).1,
   (c10_required_fields_sanitized "c0"
      { id := "s1", title := "T", stype := "Class",
        required_fields := .notArr, status := "closed",
        start_time := none, end_time := none } 20 none (.ok none)).2 rfl⟩

/-- The single-pass scan and the run-dropping formulation of
`replace(/\s+/g, '_')` agree, in both flag states. -/
theorem collapseWsAux_eq_collapseRuns (l : List Char) :
    collapseWsAux false l = collapseRuns l ∧
    collapseWsAux true l = collapseRuns (l.dropWhile jsWhitespace) := by
  induction l with
  | nil => simp [collapseWsAux, collapseRuns]
  | cons c cs ih =>
      by_cases h : jsWhitespace c = true
      · constructor
        · rw [show collapseWsAux false (c :: cs)
                = '_' :: collapseWsAux true cs by simp [collapseWsAux, h]]
          rw [ih.2, collapseRuns]
          simp [h]
        · rw [show collapseWsAux true (c :: cs)
                = collapseWsAux true cs by simp [collapseWsAux, h]]
          rw [ih.2]
          simp [List.dropWhile, h]
      · have h' : jsWhitespace c = false := by
          revert h
          cases jsWhitespace c <;> simp
        constructor
        · rw [show collapseWsAux false (c :: cs)
                = c :: collapseWsAux false cs by simp [collapseWsAux, h']]
          rw [ih.1, collapseRuns]
          simp [h']
        · rw [show collapseWsAux true (c :: cs)
                = c :: collapseWsAux false cs by simp [collapseWsAux, h']]
          rw [ih.1]
          rw [show (c :: cs).dropWhile jsWhitespace = c :: cs by
                simp [List.dropWhile, h']]
          rw [collapseRuns]
          simp [h']

/-- The implemented key normalization equals the run-collapsing reading
of the rule. -/
theorem normalizeKey_eq_spec (s : String) :
    normalizeKey s = specNormalizeKey s := by
  unfold normalizeKey specNormalizeKey
  rw [(collapseWsAux_eq_collapseRuns (s.data.map Char.toLower)).1]

/-- Reading back the key just written into the object yields the written
value: a later write overwrites an earlier one. -/
theorem lookupKV_insertKV_self (l : List (String × String))
    (k v : String) : lookupKV (insertKV l k v) k = some v := by
  induction l with
  | nil => simp [insertKV, lookupKV, List.find?]
  | cons p rest ih =>
      by_cases h : p.1 = k
      · simp [insertKV, h, lookupKV, List.find?]
      · simp only [insertKV]
        rw [if_neg (by exact fun hh => h (by rw [hh]))]
        simpa [lookupKV, List.find?, h] using ih

/-- Writing a different key leaves a key's value unchanged. -/
theorem lookupKV_insertKV_other (l : List (String × String))
    (k k' v : String) (hne : k ≠ k') :
    lookupKV (insertKV l k' v) k = lookupKV l k := by
  have hne' : ¬(k' = k) := fun hh => hne hh.symm
  induction l with
  | nil => simp [insertKV, lookupKV, List.find?, hne']
  | cons p rest ih =>
      by_cases h : p.1 = k'
      · have hpk : ¬(p.1 = k) := by rw [h]; exact hne'
        simp [insertKV, h, lookupKV, List.find?, hpk, hne']
      · simp only [insertKV]
        rw [if_neg h]
        by_cases hk : p.1 = k
        · simp [lookupKV, List.find?, hk]
        · simpa [lookupKV, List.find?, hk] using ih

/-- Looking up a key in the object built by in-order writes: a rendered
key holds its form value; an absent key falls back to the accumulator. -/
theorem foldl_insertKV_lookup (values : String → String)
    (ks : List String) (init : List (String × String)) (k : String) :
    lookupKV (ks.foldl (fun acc k' => insertKV acc k' (values k')) init) k
      = if k ∈ ks then some (values k) else lookupKV init k := by
  induction ks generalizing init with
  | nil => simp
  | cons k' ks ih =>
      simp only [List.foldl_cons]
      rw [ih]
      by_cases hmem : k ∈ ks
      · simp [hmem, List.mem_cons]
      · by_cases hk : k = k'
        · subst hk
          simp [hmem, lookupKV_insertKV_self]
        · simp [hmem, hk, lookupKV_insertKV_other _ _ _ _ hk]

/-- C2: the rendered field key sequence is `name`, `email`, then the
normalized display name (lower-cased, each whitespace run replaced by
one underscore) of each custom field in stored order; within the payload
object, a repeated write to a colliding key overwrites the earlier value
(last one wins), and every rendered key ends up holding its form value —
no duplicate is removed from the rendered sequence itself. -/
theorem c2_field_keys_and_collisions (sp : Space)
    (values : String → String) (l : List (String × String))
    (k v : String) :
    formFieldKeys sp
      = "name" :: "email" ::
          sp.required_fields.map (fun f => specNormalizeKey f.name) ∧
    lookupKV (insertKV l k v) k = some v ∧
    (k ∈ formFieldKeys sp →
      lookupKV (buildPayload sp values) k = some (values k)) := by
  refine ⟨?_, lookupKV_insertKV_self l k v, ?_⟩
  · simp [formFieldKeys, formFields, normalizeKey_eq_spec]
  · intro hmem
    unfold buildPayload
    rw [foldl_insertKV_lookup values (formFieldKeys sp) [] k]
    simp [hmem]

/-- Witness for C2 at a concrete schema with two colliding custom
fields, `Phone Number` and `phone  number`. -/
theorem c2_witness :
    (formFieldKeys
        { id := "s1", title := "T", stype := "Class",
          required_fields :=
            [{ id := "f1", name := "Phone Number", ftype := "text",
               required := true },
             { id := "f2", name := "phone  number", ftype := "text",
               required := false }],
          status := "open", start_time := none, end_time := none }
      = "name" :: "email" ::
          ([{ id := "f1", name := "Phone Number", ftype := "text",
              required := true },
            { id := "f2", name := "phone  number", ftype := "text",
              required := false }] : List CustomField).map
            (fun f => specNormalizeKey f.name)) ∧
    lookupKV (insertKV [("phone_number", "111")] "phone_number" "222")
        "phone_number" = some "222" ∧
    ("phone_number" ∈ formFieldKeys
        { id := "s1", title := "T", stype := "Class",
          required_fields :=
            [{ id := "f1", name := "Phone Number", ftype := "text",
               required := true },
             { id := "f2", name := "phone  number", ftype := "text",
               required := false }],
          status := "open", start_time := none, end_time := none } →
      lookupKV (buildPayload
          { id := "s1", title := "T", stype := "Class",
            required_fields :=
              [{ id := "f1", name := "Phone Number", ftype := "text",
                 required := true },
               { id := "f2", name := "phone  number", ftype := "text",
                 required := false }],
            status := "open", start_time := none, end_time := none }
          (fun _ => "222")) "phone_number" = some "222") :=
  c2_field_keys_and_collisions _ (fun _ => "222")
    [("phone_number", "111")] "phone_number" "222"

/-- C5: a value failing the email pattern blocks the insert; in general
the insert is issued exactly when every rendered field's rules pass, so
no store write happens until local validation succeeds. -/
theorem c5_validation_gates_insert (sp : Space) (user : Option String)
    (values : String → String) :
    (values "email" = "not-an-email" →
      handleSubmit sp user values = none) ∧
    (handleSubmit sp user values ≠ none →
      ∀ kr ∈ formFields sp, ruleOk kr.2 (values kr.1) = true) ∧
    ((∀ kr ∈ formFields sp, ruleOk kr.2 (values kr.1) = true) →
      (handleSubmit sp user values).isSome = true) := by
  refine ⟨?_, ?_, ?_⟩
  · intro h
    have hfail : ¬((formFields sp).all
        (fun kr => ruleOk kr.2 (values kr.1)) = true) := by
      intro hall
      have hmem : ("email",
          ({ required := true, emailPattern := true } : FieldRule))
          ∈ formFields sp := by
        simp [formFields]
      have hr := List.all_eq_true.mp hall _ hmem
      simp only [h] at hr
      exact absurd hr (by decide)
    unfold handleSubmit
    rw [if_neg hfail]
  · intro hne
    unfold handleSubmit at hne
    by_cases hall : (formFields sp).all
        (fun kr => ruleOk kr.2 (values kr.1)) = true
    · exact List.all_eq_true.mp hall
    · rw [if_neg hall] at hne
      exact absurd rfl hne
  · intro hall
    unfold handleSubmit
    rw [if_pos (List.all_eq_true.mpr hall)]
    simp [onSubmit]

/-- Witness for C5: on a concrete space with one custom field, the
invalid email blocks the write and a valid submission issues it. -/
theorem c5_witness :
    handleSubmit
        { id := "s1", title := "T", stype := "Class",
          required_fields :=
            [{ id := "f1", name := "Student ID", ftype := "number",
               required := true }],
          status := "open", start_time := none, end_time := none }
        none
        (fun k => if k = "email" then "not-an-email" else "x")
      = none ∧
    (handleSubmit
        { id := "s1", title := "T", stype := "Class",
          required_fields :=
            [{ id := "f1", name := "Student ID", ftype := "number",
               required := true }],
          status := "open", start_time := none, end_time := none }
        none
        (fun k => if k = "email" then "a@b.co" else "99")).isSome
      = true :=
  ⟨(c5_validation_gates_insert
      { id := "s1", title := "T", stype := "Class",
        required_fields :=
          [{ id := "f1", name := "Student ID", ftype := "number",
             required := true }],
        status := "open", start_time := none, end_time := none }
      none (fun k => if k = "email" then "not-an-email" else "x")).1
      rfl,
   (c5_validation_gates_insert
      { id := "s1", title := "T", stype := "Class",
        required_fields :=
          [{ id := "f1", name := "Student ID", ftype := "number",
             required := true }],
        status := "open", start_time := none, end_time := none }
      none (fun k => if k = "email" then "a@b.co" else "99")).2.2
      (by decide)⟩

/-- C6 is refuted as stated: with an authenticated identity present
whose id is the empty string, `user?.id || null` coerces the present id
to null, so the written `user_id` is not the identity's id. -/
theorem c6_counterexample :
    (handleSubmit
        { id := "s1", title := "T", stype := "Class",
          required_fields := [], status := "open",
          start_time := none, end_time := none }
        (some "")
        (fun k => if k = "email" then "jane@x.com" else "Jane Doe")).map
      AttendanceRecord.user_id = some none ∧
    (some "" : Option String) ≠ none := by
  exact ⟨rfl, by decide⟩

/-- C6 (amended): every successful submission issues exactly one insert
whose record has the resolved space's id, the validated payload keyed by
the fixed-plus-normalized rule, and as `user_id` the identity's id when
present and non-empty, null otherwise (`||` coerces an empty id). -/
theorem c6_single_insert_shape (sp : Space) (user : Option String)
    (values : String → String) (r : AttendanceRecord)
    (h : handleSubmit sp user values = some r) :
    r.space_id = sp.id ∧ r.user_id = jsOrNull user ∧
    r.fields = buildPayload sp values := by
  unfold handleSubmit at h
  by_cases hall : (formFields sp).all
      (fun kr => ruleOk kr.2 (values kr.1)) = true
  · rw [if_pos hall] at h
    unfold onSubmit at h
    injection h with h
    subst h
    exact ⟨rfl, rfl, rfl⟩
  · rw [if_neg hall] at h
    cases h

/-- Witness for C6 at a concrete successful submission. -/
theorem c6_witness :
    ({ space_id := "s1", user_id := some "u1",
       fields := [("name", "Jane Doe"), ("email", "jane@x.com")] }
        : AttendanceRecord).space_id
      = ({ id := "s1", title := "T", stype := "Class",
           required_fields := [], status := "open",
           start_time := none, end_time := none } : Space).id ∧
    ({ space_id := "s1", user_id := some "u1",
       fields := [("name", "Jane Doe"), ("email", "jane@x.com")] }
        : AttendanceRecord).user_id = jsOrNull (some "u1") ∧
    ({ space_id := "s1", user_id := some "u1",
       fields := [("name", "Jane Doe"), ("email", "jane@x.com")] }
        : AttendanceRecord).fields
      = buildPayload
          { id := "s1", title := "T", stype := "Class",
            required_fields := [], status := "open",
            start_time := none, end_time := none }
          (fun k => if k = "email" then "jane@x.com" else "Jane Doe") :=
  c6_single_insert_shape
    { id := "s1", title := "T", stype := "Class",
      required_fields := [], status := "open",
      start_time := none, end_time := none }
    (some "u1")
    (fun k => if k = "email" then "jane@x.com" else "Jane Doe")
    { space_id := "s1", user_id := some "u1",
      fields := [("name", "Jane Doe"), ("email", "jane@x.com")] }
    rfl

/-- Clicks on the disabled (in-flight) submit control do nothing. -/
theorem applyClicks_inflight (n : Nat) (st : SubmitUi)
    (h : st.isSubmitting = true) : applyClicks n st = st := by
  induction n with
  | zero => rfl
  | succ m ih =>
      show applyClicks m (clickSubmit st) = st
      rw [show clickSubmit st = st by
            simp [clickSubmit, submitDisabled, h]]
      exact ih

/-- C7: the submit control is disabled while a request is in flight, so
clicks during an in-flight request are no-ops, any burst of clicks with
no intervening completion issues at most one insert, and from the idle
state a double-click (or any positive burst) issues exactly one insert
and leaves the request in flight. -/
theorem c7_serialized_submit (st : SubmitUi) (n : Nat) :
    (st.isSubmitting = true → applyClicks n st = st) ∧
    (applyClicks n st).inserts ≤ st.inserts + 1 ∧
    (st.isSubmitting = false → 0 < n →
      (applyClicks n st).inserts = st.inserts + 1 ∧
      (applyClicks n st).isSubmitting = true) := by
  refine ⟨applyClicks_inflight n st, ?_, ?_⟩
  · by_cases h : st.isSubmitting = true
    · rw [applyClicks_inflight n st h]
      exact Nat.le_succ _
    · have hfalse : st.isSubmitting = false := by
        revert h
        cases st.isSubmitting <;> simp
      cases n with
      | zero => exact Nat.le_succ _
      | succ m =>
          have hclick : clickSubmit st
              = { isSubmitting := true, inserts := st.inserts + 1 } := by
            simp [clickSubmit, submitDisabled, hfalse]
          show (applyClicks m (clickSubmit st)).inserts ≤ st.inserts + 1
          rw [hclick, applyClicks_inflight m _ rfl]
  · intro hfalse hpos
    cases n with
    | zero => exact absurd hpos (by simp)
    | succ m =>
        have hclick : clickSubmit st
            = { isSubmitting := true, inserts := st.inserts + 1 } := by
          simp [clickSubmit, submitDisabled, hfalse]
        constructor
        · show (applyClicks m (clickSubmit st)).inserts = st.inserts + 1
          rw [hclick, applyClicks_inflight m _ rfl]
        · show (applyClicks m (clickSubmit st)).isSubmitting = true
          rw [hclick, applyClicks_inflight m _ rfl]

/-- Witness for C7: a double-click from the idle state issues exactly
one insert, and clicks while in flight change nothing. -/
theorem c7_witness :
    ((applyClicks 2 { isSubmitting := false, inserts := 0 }).inserts
        = 0 + 1 ∧
     (applyClicks 2 { isSubmitting := false, inserts := 0 }).isSubmitting
        = true) ∧
    applyClicks 3 { isSubmitting := true, inserts := 5 }
      = { isSubmitting := true, inserts := 5 } :=
  ⟨(c7_serialized_submit { isSubmitting := false, inserts := 0 } 2).2.2
      rfl (by decide),
   (c7_serialized_submit { isSubmitting := true, inserts := 5 } 3).1 rfl⟩

/-- C1 is refuted as stated: the submit handler does not re-check that
the space is accepting — it only checks that a space is loaded — so
invoked with a closed space in state it issues the insert. -/
theorem c1_counterexample :
    ({ id := "s1", title := "T", stype := "Class",
       required_fields := [], status := "closed",
       start_time := none, end_time := none } : Space).status
      ≠ "open" ∧
    handleSubmit
        { id := "s1", title := "T", stype := "Class",
          required_fields := [], status := "closed",
          start_time := none, end_time := none }
        none
        (fun k => if k = "email" then "jane@x.com" else "Jane Doe")
      = some { space_id := "s1", user_id := none,
               fields := [("name", "Jane Doe"),
                          ("email", "jane@x.com")] } := by
  exact ⟨by decide, rfl⟩

/-- C1 (amended): the submit handler re-checks only that a space is
loaded (no insert when it is null); protection against non-accepting
spaces comes from the render gate: resolving a space that is not open,
or open but ended, sets the error, so the error view renders instead of
the form and no submit invocation is reachable from that page. -/
theorem c1_render_gate_blocks (c : String) (row : SpaceRow) (now : Nat)
    (user : Option String) (prefill : Except Unit (Option UserRow))
    (h : row.status ≠ "open" ∨ sessionEnded row now = true) :
    viewAfterFetch (fetchSpace (some c) (.ok row) now user prefill).1
        = View.errorView ∧
    (∀ u d, onSubmit none u d = none) := by
  constructor
  · rcases h with h | h
    · simp [fetchSpace, h, viewAfterFetch, renderView]
    · by_cases hs : row.status = "open"
      · simp [fetchSpace, hs, h, viewAfterFetch, renderView]
      · simp [fetchSpace, hs, viewAfterFetch, renderView]
  · intro u d
    rfl

/-- Witness for C1 (amended) at a concrete closed row. -/
theorem c1_witness :
    viewAfterFetch (fetchSpace (some "TEND-00042")
        (.ok { id := "s1", title := "T", stype := "Class",
               required_fields := .arr [], status := "closed",
               start_time := none, end_time := none })
        20 none (.ok none)).1
      = View.errorView ∧
    (∀ u d, onSubmit none u d = none) :=
  c1_render_gate_blocks "TEND-00042"
    { id := "s1", title := "T", stype := "Class",
      required_fields := .arr [], status := "closed",
      start_time := none, end_time := none }
    20 none (.ok none) (Or.inl (by decide))

/-- C8 is refuted as stated: a prefill fetch that throws is not
swallowed — it reaches the resolver's catch, which surfaces the
not-found message and blocks the flow with the error view. -/
theorem c8_counterexample :
    (fetchSpace (some "c0")
        (.ok { id := "s1", title := "T", stype := "Class",
               required_fields := .arr [], status := "open",
               start_time := none, end_time := none })
        20 (some "u1") (.error ())).1.error
      = some "Attendance session not found" ∧
    viewAfterFetch (fetchSpace (some "c0")
        (.ok { id := "s1", title := "T", stype := "Class",
               required_fields := .arr [], status := "open",
               start_time := none, end_time := none })
        20 (some "u1") (.error ())).1
      = View.errorView := by
  exact ⟨rfl, rfl⟩

/-- C8 (amended): the prefill fetch is issued at most once and only in
the accepting branch with an authenticated user; a prefill that
completes without data is silently skipped and the form still renders;
but a prefill fetch that throws lands in the resolver's catch,
surfacing the not-found message and blocking the flow. -/
theorem c8_prefill_once_accepting (code : Option String)
    (lookup : Except Unit SpaceRow) (now : Nat) (user : Option String)
    (prefill : Except Unit (Option UserRow)) :
    (fetchSpace code lookup now user prefill).2 ≤ 1 ∧
    ((fetchSpace code lookup now user prefill).2 = 1 →
      code.isSome = true ∧ user.isSome = true ∧
      ∃ row, lookup = Except.ok row ∧ row.status = "open" ∧
        sessionEnded row now = false) ∧
    (∀ c row, code = some c → lookup = Except.ok row →
      row.status = "open" → sessionEnded row now = false →
      prefill = Except.ok none →
      (fetchSpace code lookup now user prefill).1.error = none ∧
      viewAfterFetch (fetchSpace code lookup now user prefill).1
        = View.formView) ∧
    (∀ c row uid, code = some c → lookup = Except.ok row →
      row.status = "open" → sessionEnded row now = false →
      user = some uid → prefill = Except.error () →
      (fetchSpace code lookup now user prefill).1.error
        = some notFoundMsg ∧
      viewAfterFetch (fetchSpace code lookup now user prefill).1
        = View.errorView) := by
  cases code with
  | none => simp [fetchSpace]
  | some c0 =>
      cases lookup with
      | error e => simp [fetchSpace]
      | ok row =>
          by_cases hs : row.status = "open"
          · by_cases he : sessionEnded row now = true
            · refine ⟨?_, ?_, ?_, ?_⟩
              · simp [fetchSpace, hs, he]
              · simp [fetchSpace, hs, he]
              · intro c row' hc hrow hst hend hp
                injection hrow with hr
                subst hr
                simp [hend] at he
              · intro c row' uid hc hrow hst hend hu hp
                injection hrow with hr
                subst hr
                simp [hend] at he
            · have he' : sessionEnded row now = false := by
                revert he
                cases sessionEnded row now <;> simp
              cases user with
              | none =>
                  simp [fetchSpace, hs, he', viewAfterFetch, renderView]
              | some uid =>
                  cases prefill with
                  | error e =>
                      simp [fetchSpace, hs, he', viewAfterFetch,
                            renderView]
                  | ok d =>
                      cases d <;>
                        simp [fetchSpace, hs, he', viewAfterFetch,
                              renderView]
          · refine ⟨?_, ?_, ?_, ?_⟩
            · simp [fetchSpace, hs]
            · simp [fetchSpace, hs]
            · intro c row' hc hrow hst hend hp
              injection hrow with hr
              subst hr
              exact absurd hst hs
            · intro c row' uid hc hrow hst hend hu hp
              injection hrow with hr
              subst hr
              exact absurd hst hs

/-- Witness for C8 (amended): a concrete accepting load with a user and
a dataless prefill fetches the profile once and still shows the form. -/
theorem c8_witness :
    (fetchSpace (some "c0")
        (.ok { id := "s1", title := "T", stype := "Class",
               required_fields := .arr [], status := "open",
               start_time := none, end_time := none })
        20 (some "u1") (.ok none)).2 ≤ 1 ∧
    ((fetchSpace (some "c0")
        (.ok { id := "s1", title := "T", stype := "Class",
               required_fields := .arr [], status := "open",
               start_time := none, end_time := none })
        20 (some "u1") (.ok none)).1.error = none ∧
     viewAfterFetch (fetchSpace (some "c0")
        (.ok { id := "s1", title := "T", stype := "Class",
               required_fields := .arr [], status := "open",
               start_time := none, end_time := none })
        20 (some "u1") (.ok none)).1 = View.formView) :=
  ⟨(c8_prefill_once_accepting (some "c0")
      (.ok { id := "s1", title := "T", stype := "Class",
             required_fields := .arr [], status := "open",
             start_time := none, end_time := none })
      20 (some "u1") (.ok none)).1,
   (c8_prefill_once_accepting (some "c0")
      (.ok { id := "s1", title := "T", stype := "Class",
             required_fields := .arr [], status := "open",
             start_time := none, end_time := none })
      20 (some "u1") (.ok none)).2.2.1 "c0"
      { id := "s1", title := "T", stype := "Class",
        required_fields := .arr [], status := "open",
        start_time := none, end_time := none }
      rfl rfl rfl rfl rfl⟩

end TendX
